import Mathlib

/-!
Verification of djangocms-content-expiry against its specification.

The Python sources under djangocms_content_expiry/ are shallowly embedded:
pure computations become Lean functions, Django querysets become Lean lists,
fallible operations return Except, and the process-wide exclusion cache
becomes explicit state passing.  Calendar dates are modelled as
year/month/day triples; timestamps used by the changelist filters and the
CSV export are modelled as epoch seconds (Int).
-/

namespace DCE

/-! ## Calendar arithmetic (dateutil.relativedelta as used by utils.py) -/

/-- Gregorian leap-year test, as in Python's calendar module. -/
def isLeapYear (y : Nat) : Bool :=
  (y % 4 == 0 && y % 100 != 0) || (y % 400 == 0)

/-- Number of days in month `m` (1-12) of year `y`, as in calendar.monthrange. -/
def daysInMonth (y m : Nat) : Nat :=
  if m == 2 then (if isLeapYear y then 29 else 28)
  else if m == 4 || m == 6 || m == 9 || m == 11 then 30
  else 31

/-- A calendar date as held by a Python datetime.date. -/
structure Date where
  year : Nat
  month : Nat
  day : Nat
deriving Repr, DecidableEq

/-- A date is valid when its month is 1-12 and its day fits the month. -/
abbrev Date.valid (d : Date) : Prop :=
  1 ≤ d.month ∧ d.month ≤ 12 ∧ 1 ≤ d.day ∧ d.day ≤ daysInMonth d.year d.month

/-- dateutil.relativedelta restricted to the months component, the only form
constructed by utils.py (`relativedelta(months=...)`). -/
structure Relativedelta where
  months : Nat
deriving Repr, DecidableEq

/-- Addition of a date and a relativedelta of n months: dateutil advances
the month, carrying into the year, and clamps the day to the length of the
target month. -/
def addRelativedelta (d : Date) (delta : Relativedelta) : Date :=
  let t := d.month - 1 + delta.months
  let y := d.year + t / 12
  let m := t % 12 + 1
  { year := y, month := m, day := min d.day (daysInMonth y m) }

/-! ## Data model

models.py, conf.py and cache.py are framework wiring not included with the
embedded sources; the record shapes below are taken from how admin.py,
filters.py, helpers.py and utils.py access them.  Content types are opaque
identifiers (modelled as the strings carried in query parameters). -/

/-- A DefaultContentExpiryConfiguration row: maps a content type to a
duration in months. -/
structure DefaultContentExpiryConfiguration where
  content_type : String
  duration : Nat
deriving Repr, DecidableEq

/-- The content object a version points at.  `polymorphic_ctype` is `some c`
exactly when the Python object has the django-polymorphic
`polymorphic_ctype_id` attribute, with `c` its concrete content type. -/
structure Content where
  polymorphic_ctype : Option String
deriving Repr, DecidableEq

/-- A djangocms-versioning Version row, with the fields read by this app:
the registered content type, the generic object id, the content object, the
lifecycle state and the author's user pk. -/
structure Version where
  content_type : String
  object_id : Nat
  content : Content
  state : String
  created_by : Nat
deriving Repr, DecidableEq

/-- A ContentExpiry row: one versioned item with an expiry timestamp
(epoch seconds, absent until computed) and a creation author. -/
structure ContentExpiry where
  id : Nat
  version : Version
  created_by : Nat
  expires : Option Int
deriving Repr, DecidableEq

/-! ## utils.py -/

/-- utils._get_version_content_model_content_type: the content type
registered by the version. -/
def _get_version_content_model_content_type (version : Version) : String :=
  version.content_type

/-- utils.get_default_duration_for_version: filter the configuration table
by the version's content type; if any row matches return its duration as a
relativedelta, otherwise fall back to the process-wide constant
DEFAULT_CONTENT_EXPIRY_DURATION (from conf.py, passed here as
`defaultMonths`). -/
def get_default_duration_for_version
    (configs : List DefaultContentExpiryConfiguration) (defaultMonths : Nat)
    (version : Version) : Relativedelta :=
  match configs.filter
      (fun c => c.content_type == _get_version_content_model_content_type version) with
  | [] => { months := defaultMonths }
  | c :: _ => { months := c.duration }

/-- utils.get_future_expire_date: base date plus the resolved default
duration. -/
def get_future_expire_date
    (configs : List DefaultContentExpiryConfiguration) (defaultMonths : Nat)
    (version : Version) (date : Date) : Date :=
  addRelativedelta date (get_default_duration_for_version configs defaultMonths version)

/-! ## Theorems for C1 -/

lemma filter_eq_nil_of_no_match
    (configs : List DefaultContentExpiryConfiguration) (ct : String)
    (h : ∀ c ∈ configs, c.content_type ≠ ct) :
    configs.filter (fun c => c.content_type == ct) = [] := by
  induction configs with
  | nil => rfl
  | cons a l ih =>
      have ha : (a.content_type == ct) = false := by
        simpa using h a (List.mem_cons_self a l)
      have hl : ∀ c ∈ l, c.content_type ≠ ct := fun c hc => h c (List.mem_cons_of_mem a hc)
      simp [List.filter_cons, ha, ih hl]

lemma filter_eq_single_of_pairwise
    (configs : List DefaultContentExpiryConfiguration) (ct : String)
    (c : DefaultContentExpiryConfiguration)
    (hpw : configs.Pairwise (fun a b => a.content_type ≠ b.content_type))
    (hc : c ∈ configs) (hct : c.content_type = ct) :
    configs.filter (fun c' => c'.content_type == ct) = [c] := by
  induction configs with
  | nil => cases hc
  | cons a l ih =>
      have hpw' := (List.pairwise_cons.mp hpw).2
      have hhead := (List.pairwise_cons.mp hpw).1
      rcases List.mem_cons.mp hc with rfl | hmem
      · have hl : l.filter (fun c' => c'.content_type == ct) = [] :=
          filter_eq_nil_of_no_match l ct
            (fun b hb hbct => (hhead b hb) (hct.trans hbct.symm))
        have hcteq : (c.content_type == ct) = true := by simpa using hct
        simp [List.filter_cons, hcteq, hl]
      · have hane : (a.content_type == ct) = false := by
          have := hhead c hmem
          simp only [beq_eq_false_iff_ne, ne_eq]
          intro hac
          exact this (hac.trans hct.symm)
        simp only [List.filter_cons, hane, cond_false]
        exact ih hpw' hmem

/-- C1: for every version whose content type has a matching
DefaultContentExpiryConfiguration entry (the table holding at most one entry
per content type), get_default_duration_for_version returns exactly that
entry's number of months; for every version with no matching entry it
returns the process-wide constant default; the function is total, so no
error is possible. -/
theorem C1_default_duration_resolution
    (configs : List DefaultContentExpiryConfiguration) (defaultMonths : Nat)
    (version : Version)
    (hpw : configs.Pairwise (fun a b => a.content_type ≠ b.content_type)) :
    (∀ c ∈ configs, c.content_type = version.content_type →
      get_default_duration_for_version configs defaultMonths version =
        { months := c.duration }) ∧
    ((∀ c ∈ configs, c.content_type ≠ version.content_type) →
      get_default_duration_for_version configs defaultMonths version =
        { months := defaultMonths }) := by
  constructor
  · intro c hc hct
    unfold get_default_duration_for_version _get_version_content_model_content_type
    rw [filter_eq_single_of_pairwise configs version.content_type c hpw hc hct]
  · intro hnone
    unfold get_default_duration_for_version _get_version_content_model_content_type
    rw [filter_eq_nil_of_no_match configs version.content_type hnone]

/-- Witness for C1 at a concrete configuration table and version. -/
theorem C1_default_duration_resolution_witness :
    ([⟨"page", 6⟩, ⟨"poll", 3⟩] : List DefaultContentExpiryConfiguration).Pairwise
        (fun a b => a.content_type ≠ b.content_type) ∧
    get_default_duration_for_version [⟨"page", 6⟩, ⟨"poll", 3⟩] 12
        { content_type := "page", object_id := 1, content := ⟨none⟩,
          state := "published", created_by := 1 } = { months := 6 } ∧
    get_default_duration_for_version [⟨"page", 6⟩, ⟨"poll", 3⟩] 12
        { content_type := "blog", object_id := 2, content := ⟨none⟩,
          state := "published", created_by := 1 } = { months := 12 } := by
  refine ⟨by simp, ?_, ?_⟩
  · exact (C1_default_duration_resolution _ 12 _ (by simp)).1 ⟨"page", 6⟩ (by simp) rfl
  · exact (C1_default_duration_resolution _ 12 _ (by simp)).2 (by intro c hc; fin_cases hc <;> simp)

/-! ## Theorems for C2 -/

lemma daysInMonth_ge (y m : Nat) : 28 ≤ daysInMonth y m := by
  unfold daysInMonth
  split
  · split <;> omega
  · split <;> omega

/-- C2: get_future_expire_date adds the resolved duration to the base date
with calendar-aware month arithmetic: the month index (years*12+months)
advances by exactly the duration, the result keeps the same day-of-month
clamped to the length of the target month (so Jan 31 + 1 month is the last
day of February, never an invalid date), and the result is always a valid
date.  The embedding is a pure function, so the computation has no side
effects. -/
theorem C2_future_expire_date
    (configs : List DefaultContentExpiryConfiguration) (defaultMonths : Nat)
    (version : Version) (d : Date) (hd : d.valid) :
    (get_future_expire_date configs defaultMonths version d).year * 12 +
        ((get_future_expire_date configs defaultMonths version d).month - 1) =
      d.year * 12 + (d.month - 1) +
        (get_default_duration_for_version configs defaultMonths version).months ∧
    (get_future_expire_date configs defaultMonths version d).day =
      min d.day (daysInMonth (get_future_expire_date configs defaultMonths version d).year
        (get_future_expire_date configs defaultMonths version d).month) ∧
    (get_future_expire_date configs defaultMonths version d).valid := by
  obtain ⟨hm1, hm2, hd1, hd2⟩ := hd
  set n := (get_default_duration_for_version configs defaultMonths version).months with hn
  unfold get_future_expire_date addRelativedelta
  rw [← hn]
  set t := d.month - 1 + n with ht
  have hdm := Nat.div_add_mod t 12
  have hmltt : t % 12 < 12 := Nat.mod_lt _ (by omega)
  refine ⟨by simp; omega, by simp, ?_, ?_, ?_, ?_⟩
  · simp
  · simp; omega
  · have h28 := daysInMonth_ge (d.year + t / 12) (t % 12 + 1)
    simp; omega
  · simp

/-- Witness for C2: January 31 plus a configured one-month duration lands on
February 28 of a non-leap year. -/
theorem C2_future_expire_date_witness :
    (Date.mk 2023 1 31).valid ∧
    get_future_expire_date [⟨"page", 1⟩] 12
        { content_type := "page", object_id := 1, content := ⟨none⟩,
          state := "published", created_by := 1 }
        (Date.mk 2023 1 31) = Date.mk 2023 2 28 ∧
    ((get_future_expire_date [⟨"page", 1⟩] 12
        { content_type := "page", object_id := 1, content := ⟨none⟩,
          state := "published", created_by := 1 } (Date.mk 2023 1 31)).year * 12 +
      ((get_future_expire_date [⟨"page", 1⟩] 12
        { content_type := "page", object_id := 1, content := ⟨none⟩,
          state := "published", created_by := 1 } (Date.mk 2023 1 31)).month - 1) =
      (Date.mk 2023 1 31).year * 12 + ((Date.mk 2023 1 31).month - 1) +
        (get_default_duration_for_version [⟨"page", 1⟩] 12
          { content_type := "page", object_id := 1, content := ⟨none⟩,
            state := "published", created_by := 1 }).months) :=
  ⟨by decide, by decide,
    (C2_future_expire_date [⟨"page", 1⟩] 12
      { content_type := "page", object_id := 1, content := ⟨none⟩,
        state := "published", created_by := 1 }
      (Date.mk 2023 1 31) (by decide)).1⟩

/-! ## String helpers (Python str.split and substring membership)

Lean's String.splitOn is defined by well-founded recursion and does not
reduce inside the kernel, so the Python string operations that the filters
use are embedded structurally over the character list. -/

/-- Auxiliary accumulator-style split over a character list. -/
def pySplitAux (sep : Char) : List Char → List Char → List String
  | [], acc => [String.mk acc.reverse]
  | c :: rest, acc =>
      if c = sep then String.mk acc.reverse :: pySplitAux sep rest []
      else pySplitAux sep rest (c :: acc)

/-- Python `s.split(sep)` for a one-character separator: the empty string
yields `[""]`, and a trailing separator yields a trailing empty piece, just
as in Python. -/
def pySplit (s : String) (sep : Char) : List String :=
  pySplitAux sep s.data []

/-- Python `sub in s`: whether `sub` occurs as a substring of `s`. -/
def containsSubstr (s sub : String) : Bool :=
  s.data.tails.any (fun t => sub.data.isPrefixOf t)

/-- Python `int(s)` on a decimal string (as Django's pk coercion performs):
defined when the string is non-empty and all digits, `none` (a raised
ValueError) otherwise. -/
def pyToNat (s : String) : Option Nat :=
  if s.data ≠ [] ∧ s.data.all Char.isDigit then
    some (s.data.foldl (fun n c => n * 10 + (c.toNat - 48)) 0)
  else none

/-! ## filters.py: version state, date range and author filters -/

/-- djangocms_versioning.constants.PUBLISHED. -/
def PUBLISHED : String := "published"

/-- djangocms_versioning.constants.VERSION_STATES: (state code, display
label) choice pairs, used for the filter lookups and get_state_display. -/
def VERSION_STATES : List (String × String) :=
  [("draft", "Draft"), ("published", "Published"),
   ("unpublished", "Unpublished"), ("archived", "Archived")]

/-- VersionStateFilter.queryset.  `value` is SimpleListFilter.value(): the
raw `state` query parameter, `none` when absent; Python truthiness also
treats an empty string as no state.  default_filter_value is the constant
PUBLISHED, a non-empty (truthy) string, so the code's default branch is
always the live one. -/
def VersionStateFilter.queryset (value : Option String) (qs : List ContentExpiry) :
    List ContentExpiry :=
  match value with
  | none => qs.filter (fun r => r.version.state == PUBLISHED)
  | some state =>
      if state == "" then qs.filter (fun r => r.version.state == PUBLISHED)
      else if state != "_all_" then
        qs.filter (fun r => (pySplit state ',').contains r.version.state)
      else qs

/-- helpers.get_rangefilter_expires_default: the window
(now - timedelta(30), now); datetimes are modelled as epoch seconds, so
30 days is 30 * 86400 seconds. -/
def get_rangefilter_expires_default (now : Int) : Int × Int :=
  (now - 30 * 86400, now)

/-- The check any("expires__range" in seed for seed in request.GET) of the
date range filter: whether any GET
parameter key contains the substring "expires__range" (splitting on an
occurring separator yields more than one piece). -/
def hasExpiresRangeParam (getKeys : List String) : Bool :=
  getKeys.any (fun seed => containsSubstr seed "expires__range")

/-- ContentExpiryDateRangeFilter.queryset.  The super() call into the
third-party rangefilter.DateRangeFilter is modelled from the spec: that
library is an external dependency and on a request carrying no expires
range parameter it applies no filtering, the only path this embedding is
used on, so it is the identity here.  When no GET key mentions
expires__range the default trailing 30-day window is applied; a Django
`range` lookup is inclusive at both ends and never matches a NULL column. -/
def ContentExpiryDateRangeFilter.queryset (getKeys : List String) (now : Int)
    (qs : List ContentExpiry) : List ContentExpiry :=
  if !hasExpiresRangeParam getKeys then
    qs.filter (fun r =>
      match r.expires with
      | some e =>
          decide ((get_rangefilter_expires_default now).1 ≤ e) &&
          decide (e ≤ (get_rangefilter_expires_default now).2)
      | none => false)
  else qs

/-- AuthorFilter.lookups: the distinct version authors of the changelist
queryset, intersected with the user table
(`User.objects.filter(pk__in=qs.values_list("version__created_by"))`);
users are carried as their pks. -/
def AuthorFilter.lookups (users : List Nat) (qs : List ContentExpiry) : List Nat :=
  users.filter (fun u => ((qs.map (fun r => r.version.created_by)).dedup).contains u)

/-- AuthorFilter.queryset: with a truthy selected value, filter on the
expiry record's created_by column and apply distinct(); Django coerces the
string parameter to the user pk and raises ValueError when it is not
numeric. -/
def AuthorFilter.queryset (value : Option String) (qs : List ContentExpiry) :
    Except String (List ContentExpiry) :=
  match value with
  | none => .ok qs
  | some v =>
      if v == "" then .ok qs
      else
        match pyToNat v with
        | none => .error "ValueError: invalid user pk"
        | some a => .ok ((qs.filter (fun r => r.created_by == a)).dedup)

/-- Modelled from the spec: models.py is not among the embedded sources.
The spec's data model states that an ExpiryRecord's creation author is
derived from the owning version, so a well-formed record's created_by
equals its version's created_by. -/
abbrev ContentExpiry.authorDerived (r : ContentExpiry) : Prop :=
  r.created_by = r.version.created_by


/-! ## Theorems for C4, C5, C6 -/

/-- A sample version and expiry record reused by the concrete witnesses. -/
def sampleVersion : Version :=
  { content_type := "page", object_id := 1, content := { polymorphic_ctype := none },
    state := "published", created_by := 7 }

/-- A published sample record with an expiry timestamp. -/
def sampleRecord : ContentExpiry :=
  { id := 1, version := sampleVersion, created_by := 7, expires := some 9000000 }

/-- A draft sample record without an expiry timestamp. -/
def sampleDraftRecord : ContentExpiry :=
  { id := 2,
    version := { content_type := "page", object_id := 2,
                 content := { polymorphic_ctype := none },
                 state := "draft", created_by := 7 },
    created_by := 7, expires := none }

/-- C4: with no state parameter the version-state filter keeps exactly the
records whose version state is "published"; with the `_all_` sentinel it
returns the queryset unchanged; with a comma-separated selection it keeps
exactly the records whose version state is in the selected set. -/
theorem C4_version_state_filter (qs : List ContentExpiry) (s : String)
    (hs1 : s ≠ "") (hs2 : s ≠ "_all_") :
    (∀ r, r ∈ VersionStateFilter.queryset none qs ↔
      r ∈ qs ∧ r.version.state = PUBLISHED) ∧
    VersionStateFilter.queryset (some "_all_") qs = qs ∧
    (∀ r, r ∈ VersionStateFilter.queryset (some s) qs ↔
      r ∈ qs ∧ r.version.state ∈ pySplit s ',') := by
  refine ⟨?_, ?_, ?_⟩
  · intro r
    simp [VersionStateFilter.queryset, List.mem_filter]
  · simp [VersionStateFilter.queryset]
  · intro r
    simp [VersionStateFilter.queryset, hs1, hs2, List.mem_filter, List.elem_iff]

/-- Witness for C4 at a concrete queryset and state selection. -/
theorem C4_version_state_filter_witness :
    ("draft,archived" ≠ "" ∧ "draft,archived" ≠ "_all_") ∧
    ((∀ r, r ∈ VersionStateFilter.queryset none [sampleDraftRecord] ↔
        r ∈ [sampleDraftRecord] ∧ r.version.state = PUBLISHED) ∧
      VersionStateFilter.queryset (some "_all_") [sampleDraftRecord] =
        [sampleDraftRecord] ∧
      (∀ r, r ∈ VersionStateFilter.queryset (some "draft,archived")
          [sampleDraftRecord] ↔
        r ∈ [sampleDraftRecord] ∧
          r.version.state ∈ pySplit "draft,archived" ',')) :=
  ⟨⟨by decide, by decide⟩,
    C4_version_state_filter [sampleDraftRecord] "draft,archived"
      (by decide) (by decide)⟩

/-- C5: on a request with no expires range parameter, the date-range filter
keeps exactly the records whose expiry timestamp lies in the inclusive
window [now - 30 days, now], and the default window is computed as
(now - 30 days, now). -/
theorem C5_date_range_default_window (getKeys : List String) (now : Int)
    (qs : List ContentExpiry) (h : hasExpiresRangeParam getKeys = false) :
    get_rangefilter_expires_default now = (now - 30 * 86400, now) ∧
    (∀ r, r ∈ ContentExpiryDateRangeFilter.queryset getKeys now qs ↔
      r ∈ qs ∧ ∃ e, r.expires = some e ∧ now - 30 * 86400 ≤ e ∧ e ≤ now) := by
  refine ⟨rfl, ?_⟩
  intro r
  simp only [ContentExpiryDateRangeFilter.queryset, h, Bool.not_false, if_pos,
    List.mem_filter, get_rangefilter_expires_default]
  constructor
  · rintro ⟨hmem, hcond⟩
    refine ⟨hmem, ?_⟩
    cases he : r.expires with
    | none => rw [he] at hcond; simp at hcond
    | some e =>
        rw [he] at hcond
        simp only [Bool.and_eq_true, decide_eq_true_eq] at hcond
        exact ⟨e, rfl, hcond.1, hcond.2⟩
  · rintro ⟨hmem, e, he, h1, h2⟩
    refine ⟨hmem, ?_⟩
    rw [he]
    simp only [Bool.and_eq_true, decide_eq_true_eq]
    exact ⟨h1, h2⟩

/-- Witness for C5 at a concrete request and queryset. -/
theorem C5_date_range_default_window_witness :
    hasExpiresRangeParam ["state", "created_by"] = false ∧
    (get_rangefilter_expires_default 10000000 = (10000000 - 30 * 86400, 10000000) ∧
      ∀ r, r ∈ ContentExpiryDateRangeFilter.queryset ["state", "created_by"]
          10000000 [sampleRecord] ↔
        r ∈ [sampleRecord] ∧
          ∃ e, r.expires = some e ∧ 10000000 - 30 * 86400 ≤ e ∧ e ≤ 10000000) :=
  ⟨by decide,
    C5_date_range_default_window ["state", "created_by"] 10000000 [sampleRecord]
      (by decide)⟩

/-- C6: with a selected author pk, AuthorFilter.queryset keeps exactly the
records whose owning version was created by that author (using the spec's
invariant that a record's creation author is derived from its version);
every author offered by AuthorFilter.lookups has at least one expiry
record; and with no author selected the queryset is unchanged. -/
theorem C6_author_filter (users : List Nat) (qs : List ContentExpiry)
    (v : String) (a : Nat) (hv : pyToNat v = some a) (hvne : v ≠ "")
    (hderived : ∀ r ∈ qs, r.authorDerived) :
    (∃ l, AuthorFilter.queryset (some v) qs = .ok l ∧
      ∀ r, r ∈ l ↔ r ∈ qs ∧ r.version.created_by = a) ∧
    (∀ u ∈ AuthorFilter.lookups users qs, ∃ r ∈ qs, r.version.created_by = u) ∧
    AuthorFilter.queryset none qs = .ok qs := by
  refine ⟨?_, ?_, rfl⟩
  · refine ⟨(qs.filter (fun r => r.created_by == a)).dedup, ?_, ?_⟩
    · simp only [AuthorFilter.queryset, hv]
      rw [if_neg (by simpa using hvne)]
    · intro r
      simp only [List.mem_dedup, List.mem_filter, beq_iff_eq]
      constructor
      · rintro ⟨hmem, hcb⟩
        exact ⟨hmem, by rw [← (hderived r hmem)]; exact hcb⟩
      · rintro ⟨hmem, hcb⟩
        exact ⟨hmem, by rw [hderived r hmem]; exact hcb⟩
  · intro u hu
    simp only [AuthorFilter.lookups, List.mem_filter] at hu
    have hu2 := List.elem_iff.mp hu.2
    rw [List.mem_dedup] at hu2
    obtain ⟨r, hr, hru⟩ := List.mem_map.mp hu2
    exact ⟨r, hr, hru⟩

/-- Witness for C6 at a concrete user table, queryset and author choice. -/
theorem C6_author_filter_witness :
    (pyToNat "7" = some 7 ∧ ("7" : String) ≠ "" ∧
      (∀ r ∈ [sampleRecord], r.authorDerived)) ∧
    ((∃ l, AuthorFilter.queryset (some "7") [sampleRecord] = .ok l ∧
        ∀ r, r ∈ l ↔ r ∈ [sampleRecord] ∧ r.version.created_by = 7) ∧
      (∀ u ∈ AuthorFilter.lookups [7, 9] [sampleRecord],
        ∃ r ∈ [sampleRecord], r.version.created_by = u) ∧
      AuthorFilter.queryset none [sampleRecord] = .ok [sampleRecord]) :=
  ⟨⟨by decide, by decide, by decide⟩,
    C6_author_filter [7, 9] [sampleRecord] "7" 7 (by decide) (by decide)
      (by decide)⟩

/-! ## filters.py: content type filter -/

/-- Metadata of a registered Django model as the content type filter needs
it: whether the model class has the django-polymorphic polymorphic_ctype
attribute, and, when it does, the content type of its base polymorphic
model (get_base_polymorphic_model). -/
structure ModelInfo where
  polymorphic : Bool
  base_content_type : String
deriving Repr, DecidableEq

/-- ContentType.objects.get_for_id: resolve a content type id against the
content type registry; a non-numeric or unregistered id raises
(ValueError / ContentType.DoesNotExist), modelled as `none`. -/
def get_for_id (registry : List (String × ModelInfo)) (ct : String) :
    Option ModelInfo :=
  (registry.find? (fun p => p.1 == ct)).map (fun p => p.2)

/-- The Q object the loop body of ContentTypeFilter.queryset appends for
one selected content type id: for a polymorphic model, membership of the
record id in the inclusion list computed by scanning the queryset
restricted to the base content type for contents whose polymorphic_ctype
equals the selected id; for a standard model, a direct comparison of the
version content type. -/
def contentTypeQ (qs : List ContentExpiry) (ct : String) (mi : ModelInfo) :
    ContentExpiry → Bool :=
  if mi.polymorphic then
    let content_type_inclusion_list :=
      ((qs.filter (fun r => r.version.content_type == mi.base_content_type)).filter
        (fun r => r.version.content.polymorphic_ctype == some ct)).map
        (fun r => r.id)
    fun r => content_type_inclusion_list.contains r.id
  else
    fun r => r.version.content_type == ct

/-- The loop of ContentTypeFilter.queryset: resolve each selected id in
order, raising on the first unresolvable one, and collect one Q predicate
per id. -/
def buildContentTypeFilters (registry : List (String × ModelInfo))
    (qs : List ContentExpiry) :
    List String → Except String (List (ContentExpiry → Bool))
  | [] => .ok []
  | ct :: rest =>
      match get_for_id registry ct with
      | none => .error "ContentType matching query does not exist"
      | some mi =>
          (buildContentTypeFilters registry qs rest).map
            (fun fs => contentTypeQ qs ct mi :: fs)

/-- ContentTypeFilter.queryset: a missing or empty selection returns the
queryset unchanged; otherwise the per-id Q objects are OR-reduced and the
queryset filtered by the disjunction. -/
def ContentTypeFilter.queryset (registry : List (String × ModelInfo))
    (value : Option String) (qs : List ContentExpiry) :
    Except String (List ContentExpiry) :=
  match value with
  | none => .ok qs
  | some v =>
      if v == "" then .ok qs
      else
        (buildContentTypeFilters registry qs (pySplit v ',')).map
          (fun fs => qs.filter (fun r => fs.any (fun f => f r)))

/-- The data-model consistency the polymorphic workaround relies on, as a
decidable check on one record and one selected content type: when the id
resolves to a polymorphic model and the record carries that concrete
polymorphic_ctype, the record version is registered under the base
polymorphic content type (versioning attaches to the shared base model). -/
def baseConsistent (registry : List (String × ModelInfo)) (ct : String)
    (r : ContentExpiry) : Bool :=
  match get_for_id registry ct with
  | some mi =>
      !mi.polymorphic ||
      !(r.version.content.polymorphic_ctype == some ct) ||
      (r.version.content_type == mi.base_content_type)
  | none => true

/-! ## admin.py: CSV export -/

/-- Version.get_state_display: the label of the state code in the
VERSION_STATES choices (Django falls back to the raw value). -/
def get_state_display (s : String) : String :=
  match VERSION_STATES.find? (fun p => p.1 == s) with
  | some p => p.2
  | none => s

/-- csv.writer(response).writerow: append one row to the response. -/
def writerow (response : List (List String)) (row : List String) :
    List (List String) :=
  response ++ [row]

/-- The header written first by export_to_csv. -/
def contentExpiryFieldNames : List String :=
  ["Title", "Content Type", "Expiry Date", "Version State", "Version Author"]

/-- ContentExpiryAdmin._format_export_datetime: a datetime.date value is
rendered by strftime with the configured pattern
(DEFAULT_CONTENT_EXPIRY_EXPORT_DATE_FORMAT unless overridden); anything
else - in particular the NULL expiry - becomes the empty string.  strftime
itself is Python library behaviour, so the rendering of a pattern is
passed in as a function. -/
def _format_export_datetime (strftime : String → Int → String)
    (date_format : String) (date : Option Int) : String :=
  match date with
  | some d => strftime date_format d
  | none => ""

/-- One data row of the export, as written in the loop of export_to_csv.
The str() renderings of the content object, its content type and the
author are opaque framework representations, passed in as functions. -/
def exportRow (strftime : String → Int → String) (date_format : String)
    (titleStr ctypeStr authorStr : ContentExpiry → String)
    (row : ContentExpiry) : List String :=
  [titleStr row, ctypeStr row,
   _format_export_datetime strftime date_format row.expires,
   get_state_display row.version.state, authorStr row]

/-- ContentExpiryAdmin.export_to_csv: write the header row, then iterate
the filtered queryset writing one row per record. -/
def export_to_csv (strftime : String → Int → String) (date_format : String)
    (titleStr ctypeStr authorStr : ContentExpiry → String)
    (qs : List ContentExpiry) : List (List String) :=
  let response := writerow [] contentExpiryFieldNames
  qs.foldl (fun resp row =>
    writerow resp (exportRow strftime date_format titleStr ctypeStr authorStr row))
    response

/-! ## cms_config.py: site-scoped PageContent exclusion -/

/-- A cms.models.PageContent row with the site of its page node
(Expiry->Version->Content->Page->Node->Site). -/
structure PageContent where
  pk : Nat
  site : Nat
deriving Repr, DecidableEq

/-- Modelled from the spec: cache.py is not among the embedded sources.
Per the spec the exclusion cache is a short-lived process-wide store; the
call sites in cms_config.py pass no site, so it holds one optional pk
list.  Reading returns the current value. -/
def get_changelist_page_content_exclusion_cache
    (cache : Option (List Nat)) : Option (List Nat) :=
  cache

/-- Modelled from the spec: storing replaces the cached exclusion list. -/
def set_changelist_page_content_exclusion_cache
    (value : List Nat) : Option (List Nat) :=
  some value

/-- Python truthiness of the cached value: a cache miss and an empty list
are both falsy. -/
def cacheFalsy (cache : Option (List Nat)) : Bool :=
  match cache with
  | none => true
  | some l => l.isEmpty

/-- cms_config.content_expiry_site_page_content_excluded_set: reuse the
cached exclusion list when truthy, otherwise compute the pks of
PageContent rows whose page is not on the given site and cache them; then
exclude the PageContent-typed expiry records whose object id is in the
list.  Returns the filtered queryset with the new cache state. -/
def content_expiry_site_page_content_excluded_set
    (page_content_ctype : String) (pageContents : List PageContent)
    (site : Nat) (qs : List ContentExpiry) (cache : Option (List Nat)) :
    List ContentExpiry × Option (List Nat) :=
  let cached := get_changelist_page_content_exclusion_cache cache
  if cacheFalsy cached then
    let pagecontent_exclusion_list :=
      (pageContents.filter (fun p => p.site != site)).map (fun p => p.pk)
    (qs.filter (fun r =>
        !(r.version.content_type == page_content_ctype &&
          pagecontent_exclusion_list.contains r.version.object_id)),
     set_changelist_page_content_exclusion_cache pagecontent_exclusion_list)
  else
    let pagecontent_exclusion_list := cached.getD []
    (qs.filter (fun r =>
        !(r.version.content_type == page_content_ctype &&
          pagecontent_exclusion_list.contains r.version.object_id)),
     cache)

/-! ## filters.py: multiselect query-string maintenance -/

/-- SimpleListFilter.value_as_list: the comma-split selection; a missing or
empty parameter yields the empty selection. -/
def value_as_list (value : Option String) : List String :=
  match value with
  | none => []
  | some v => if v == "" then [] else pySplit v ','

/-- VersionStateFilter._update_query: drop one occurrence of the `_all_`
sentinel from the selection, append the truthy `inc` state when absent,
remove the truthy `exc` state when present; a non-empty result is joined
back into the state parameter (`some` selection), an empty one removes the
parameter from the query string (`none`). -/
def VersionStateFilter._update_query (value : Option String)
    (inc exc : Option String) : Option (List String) :=
  let selected_list := value_as_list value
  let selected_list :=
    if selected_list.contains "_all_" then selected_list.erase "_all_"
    else selected_list
  let selected_list :=
    match inc with
    | some i =>
        if i != "" && !(selected_list.contains i) then selected_list ++ [i]
        else selected_list
    | none => selected_list
  let selected_list :=
    match exc with
    | some e =>
        if e != "" && selected_list.contains e then selected_list.erase e
        else selected_list
    | none => selected_list
  if selected_list.isEmpty then none else some selected_list

/-! ## Theorems for C3 -/

lemma buildContentTypeFilters_spec (registry : List (String × ModelInfo))
    (qs : List ContentExpiry) (cts : List String)
    (hresolve : ∀ ct ∈ cts, (get_for_id registry ct).isSome = true) :
    ∃ fs, buildContentTypeFilters registry qs cts = .ok fs ∧
      ∀ r, (fs.any (fun f => f r) = true ↔
        ∃ ct ∈ cts, ∃ mi, get_for_id registry ct = some mi ∧
          contentTypeQ qs ct mi r = true) := by
  induction cts with
  | nil => exact ⟨[], rfl, by simp⟩
  | cons ct rest ih =>
      have hct : (get_for_id registry ct).isSome = true :=
        hresolve ct (List.mem_cons_self ct rest)
      obtain ⟨mi, hmi⟩ := Option.isSome_iff_exists.mp hct
      obtain ⟨fs, hfs, hiff⟩ :=
        ih (fun c hc => hresolve c (List.mem_cons_of_mem ct hc))
      refine ⟨contentTypeQ qs ct mi :: fs, ?_, ?_⟩
      · simp [buildContentTypeFilters, hmi, hfs, Except.map]
      · intro r
        simp only [List.any_cons, Bool.or_eq_true, hiff, List.mem_cons]
        constructor
        · rintro (hq | ⟨c, hc, mi', hmi', hq⟩)
          · exact ⟨ct, Or.inl rfl, mi, hmi, hq⟩
          · exact ⟨c, Or.inr hc, mi', hmi', hq⟩
        · rintro ⟨c, (rfl | hc), mi', hmi', hq⟩
          · rw [hmi] at hmi'
            cases hmi'
            exact Or.inl hq
          · exact Or.inr ⟨c, hc, mi', hmi', hq⟩

lemma contentTypeQ_spec (qs : List ContentExpiry) (ct : String) (mi : ModelInfo)
    (hids : (qs.map (fun r => r.id)).Nodup) (r : ContentExpiry) (hr : r ∈ qs) :
    contentTypeQ qs ct mi r = true ↔
      (if mi.polymorphic = true then
        r.version.content_type = mi.base_content_type ∧
          r.version.content.polymorphic_ctype = some ct
       else r.version.content_type = ct) := by
  unfold contentTypeQ
  by_cases hp : mi.polymorphic = true
  · simp only [hp, if_true]
    constructor
    · intro hcontains
      obtain ⟨r', hr'mem, hr'id⟩ := List.mem_map.mp (List.elem_iff.mp hcontains)
      rw [List.mem_filter] at hr'mem
      obtain ⟨hr'mem1, hpoly⟩ := hr'mem
      rw [List.mem_filter] at hr'mem1
      obtain ⟨hr'qs, hbase⟩ := hr'mem1
      have heq : r' = r := List.inj_on_of_nodup_map hids hr'qs hr hr'id
      subst heq
      exact ⟨by simpa using hbase, by simpa using hpoly⟩
    · rintro ⟨hbase, hpoly⟩
      apply List.elem_iff.mpr
      apply List.mem_map.mpr
      refine ⟨r, ?_, rfl⟩
      rw [List.mem_filter, List.mem_filter]
      exact ⟨⟨hr, by simpa using hbase⟩, by simpa using hpoly⟩
  · simp [hp]

/-- C3: with selected content-type ids, ContentTypeFilter.queryset returns
exactly the union over the selected ids of the records matching each id -
for a polymorphic content model those whose concrete subtype
(polymorphic_ctype) equals the selected id, for a standard model those
whose stored version content type equals it - and with no selection the
queryset is returned unchanged.  The hypotheses are the data-model
invariants the workaround relies on: record pks are unique, every selected
id resolves, and polymorphic content is versioned under its base content
type. -/
theorem C3_content_type_filter (registry : List (String × ModelInfo))
    (v : String) (qs : List ContentExpiry) (hv : v ≠ "")
    (hresolve : ∀ ct ∈ pySplit v ',', (get_for_id registry ct).isSome = true)
    (hids : (qs.map (fun r => r.id)).Nodup)
    (hbase : ∀ ct ∈ pySplit v ',', ∀ r ∈ qs, baseConsistent registry ct r = true) :
    ContentTypeFilter.queryset registry none qs = .ok qs ∧
    ∃ l, ContentTypeFilter.queryset registry (some v) qs = .ok l ∧
      ∀ r, r ∈ l ↔ r ∈ qs ∧ ∃ ct ∈ pySplit v ',', ∃ mi,
        get_for_id registry ct = some mi ∧
        (if mi.polymorphic = true then
          r.version.content.polymorphic_ctype = some ct
         else r.version.content_type = ct) := by
  refine ⟨rfl, ?_⟩
  obtain ⟨fs, hfs, hiff⟩ :=
    buildContentTypeFilters_spec registry qs (pySplit v ',') hresolve
  refine ⟨qs.filter (fun r => fs.any (fun f => f r)), ?_, ?_⟩
  · simp only [ContentTypeFilter.queryset]
    rw [if_neg (by simpa using hv)]
    simp [hfs, Except.map]
  · intro r
    rw [List.mem_filter]
    constructor
    · rintro ⟨hmem, hany⟩
      refine ⟨hmem, ?_⟩
      obtain ⟨ct, hct, mi, hmi, hq⟩ := (hiff r).mp hany
      refine ⟨ct, hct, mi, hmi, ?_⟩
      have hchar := (contentTypeQ_spec qs ct mi hids r hmem).mp hq
      by_cases hp : mi.polymorphic = true
      · rw [if_pos hp] at hchar ⊢
        exact hchar.2
      · rw [if_neg hp] at hchar ⊢
        exact hchar
    · rintro ⟨hmem, ct, hct, mi, hmi, hcond⟩
      refine ⟨hmem, ?_⟩
      apply (hiff r).mpr
      refine ⟨ct, hct, mi, hmi, ?_⟩
      apply (contentTypeQ_spec qs ct mi hids r hmem).mpr
      by_cases hp : mi.polymorphic = true
      · rw [if_pos hp] at hcond ⊢
        refine ⟨?_, hcond⟩
        have hb := hbase ct hct r hmem
        unfold baseConsistent at hb
        rw [hmi] at hb
        simp only [hp, Bool.not_true, Bool.false_or, Bool.or_eq_true,
          Bool.not_eq_true', beq_eq_false_iff_ne, ne_eq, beq_iff_eq] at hb
        rcases hb with hne | heq
        · exact absurd hcond hne
        · exact heq
      · rw [if_neg hp] at hcond ⊢
        exact hcond

/-- The polymorphic sample record used by the C3 witness: versioned under
the base content type "5" with concrete subtype "10". -/
def polyRecord : ContentExpiry :=
  { id := 11,
    version := { content_type := "5", object_id := 4,
                 content := { polymorphic_ctype := some "10" },
                 state := "published", created_by := 7 },
    created_by := 7, expires := none }

/-- The standard-model sample record used by the C3 witness. -/
def simpleRecord : ContentExpiry :=
  { id := 12,
    version := { content_type := "7", object_id := 5,
                 content := { polymorphic_ctype := none },
                 state := "published", created_by := 7 },
    created_by := 7, expires := none }

/-- The content type registry used by the concrete witnesses: id "10" is a
polymorphic model with base content type "5", id "7" a standard model. -/
def sampleRegistry : List (String × ModelInfo) :=
  [("10", { polymorphic := true, base_content_type := "5" }),
   ("7", { polymorphic := false, base_content_type := "7" })]

/-- Witness for C3 at a concrete registry, selection and queryset. -/
theorem C3_content_type_filter_witness :
    (("10,7" : String) ≠ "" ∧
      (∀ ct ∈ pySplit "10,7" ',',
        (get_for_id sampleRegistry ct).isSome = true) ∧
      (([polyRecord, simpleRecord, sampleRecord].map (fun r => r.id)).Nodup) ∧
      (∀ ct ∈ pySplit "10,7" ',', ∀ r ∈ [polyRecord, simpleRecord, sampleRecord],
        baseConsistent sampleRegistry ct r = true)) ∧
    (ContentTypeFilter.queryset sampleRegistry none
        [polyRecord, simpleRecord, sampleRecord] =
      .ok [polyRecord, simpleRecord, sampleRecord] ∧
    ∃ l, ContentTypeFilter.queryset sampleRegistry (some "10,7")
        [polyRecord, simpleRecord, sampleRecord] = .ok l ∧
      ∀ r, r ∈ l ↔ r ∈ [polyRecord, simpleRecord, sampleRecord] ∧
        ∃ ct ∈ pySplit "10,7" ',', ∃ mi,
          get_for_id sampleRegistry ct = some mi ∧
          (if mi.polymorphic = true then
            r.version.content.polymorphic_ctype = some ct
           else r.version.content_type = ct)) :=
  ⟨⟨by decide, by decide, by decide, by decide⟩,
    C3_content_type_filter sampleRegistry "10,7"
      [polyRecord, simpleRecord, sampleRecord]
      (by decide) (by decide) (by decide) (by decide)⟩

/-! ## Theorems for C7 -/

lemma foldl_writerow (g : ContentExpiry → List String)
    (init : List (List String)) (qs : List ContentExpiry) :
    qs.foldl (fun resp row => writerow resp (g row)) init = init ++ qs.map g := by
  induction qs generalizing init with
  | nil => simp
  | cons a l ih =>
      rw [List.foldl_cons, ih]
      simp [writerow]

/-- C7: the CSV export is the header row
Title, Content Type, Expiry Date, Version State, Version Author followed by
exactly one row per record of the filtered collection (so one more row than
records, and an empty collection yields just the header); in each data row
the expiry date cell is the configured strftime pattern rendered on the
timestamp, and the empty string when no expiry date is set. -/
theorem C7_csv_export (strftime : String → Int → String) (date_format : String)
    (titleStr ctypeStr authorStr : ContentExpiry → String)
    (qs : List ContentExpiry) :
    export_to_csv strftime date_format titleStr ctypeStr authorStr qs =
      contentExpiryFieldNames ::
        qs.map (exportRow strftime date_format titleStr ctypeStr authorStr) ∧
    export_to_csv strftime date_format titleStr ctypeStr authorStr [] =
      [contentExpiryFieldNames] ∧
    (export_to_csv strftime date_format titleStr ctypeStr authorStr qs).length =
      qs.length + 1 ∧
    (∀ r ∈ qs, r.expires = none →
      exportRow strftime date_format titleStr ctypeStr authorStr r =
        [titleStr r, ctypeStr r, "",
         get_state_display r.version.state, authorStr r]) ∧
    (∀ r ∈ qs, ∀ e, r.expires = some e →
      exportRow strftime date_format titleStr ctypeStr authorStr r =
        [titleStr r, ctypeStr r, strftime date_format e,
         get_state_display r.version.state, authorStr r]) := by
  have hmain : export_to_csv strftime date_format titleStr ctypeStr authorStr qs =
      contentExpiryFieldNames ::
        qs.map (exportRow strftime date_format titleStr ctypeStr authorStr) := by
    unfold export_to_csv
    rw [foldl_writerow]
    rfl
  refine ⟨hmain, rfl, ?_, ?_, ?_⟩
  · rw [hmain]
    simp
  · intro r _ hnone
    unfold exportRow _format_export_datetime
    rw [hnone]
  · intro r _ e hsome
    unfold exportRow _format_export_datetime
    rw [hsome]

/-- Witness for C7: the membership-guarded conjuncts discharged on a
concrete one-record collection with no expiry date set. -/
theorem C7_csv_export_witness :
    (sampleDraftRecord ∈ [sampleDraftRecord] ∧ sampleDraftRecord.expires = none) ∧
    exportRow (fun f _ => f) "%d.%m.%Y" (fun _ => "t") (fun _ => "c")
        (fun _ => "a") sampleDraftRecord =
      ["t", "c", "", get_state_display sampleDraftRecord.version.state, "a"] :=
  ⟨⟨List.mem_singleton.mpr rfl, rfl⟩,
    (C7_csv_export (fun f _ => f) "%d.%m.%Y" (fun _ => "t") (fun _ => "c")
        (fun _ => "a") [sampleDraftRecord]).2.2.2.1 sampleDraftRecord
      (List.mem_singleton.mpr rfl) rfl⟩

/-! ## Theorems for C8 -/

/-- C8 counterexample: a malformed filter value does raise.  Selecting the
content type id "999", which resolves to no registered content type (as a
non-numeric or unknown id does), makes ContentTypeFilter.queryset raise
ContentType.DoesNotExist instead of behaving as if no filter were
applied. -/
theorem C8_counterexample_malformed_raises :
    ContentTypeFilter.queryset
        [("1", { polymorphic := false, base_content_type := "1" })]
        (some "999") [sampleRecord] =
      .error "ContentType matching query does not exist" := rfl

/-- C8 amended: a missing filter value (an absent or empty parameter) is
treated as no filter and cannot raise - the content-type and author filters
return the queryset unchanged - but malformed values raise: an unknown or
non-numeric content-type id raises (see the counterexample), and a
non-numeric author id raises ValueError.  An unknown state value does not
raise, but it filters to the records carrying that unknown state rather
than applying no filter. -/
theorem C8_missing_values_no_filter (registry : List (String × ModelInfo))
    (qs : List ContentExpiry) (value : Option String)
    (hmissing : value = none ∨ value = some "") :
    ContentTypeFilter.queryset registry value qs = .ok qs ∧
    AuthorFilter.queryset value qs = .ok qs := by
  rcases hmissing with rfl | rfl
  · exact ⟨rfl, rfl⟩
  · exact ⟨rfl, rfl⟩

/-- Witness for the amended C8 at the empty-string parameter. -/
theorem C8_missing_values_no_filter_witness :
    ((some "" : Option String) = none ∨ (some "" : Option String) = some "") ∧
    (ContentTypeFilter.queryset sampleRegistry (some "") [sampleRecord] =
        .ok [sampleRecord] ∧
      AuthorFilter.queryset (some "") [sampleRecord] = .ok [sampleRecord]) :=
  ⟨Or.inr rfl,
    C8_missing_values_no_filter sampleRegistry [sampleRecord] (some "")
      (Or.inr rfl)⟩

/-! ## Theorems for C9 -/

/-- The PageContent-typed expiry record used by the cache counterexample:
its page (pk 10) is attached to site 2 only. -/
def pageRecord : ContentExpiry :=
  { id := 3,
    version := { content_type := "page", object_id := 10,
                 content := { polymorphic_ctype := none },
                 state := "published", created_by := 7 },
    created_by := 7, expires := none }

/-- C9 counterexample: the exclusion cache is not keyed by site.  With one
PageContent (pk 10) attached only to site 2, a first call for site 1
caches the exclusion list [10]; a second call for site 2 reuses that list
and returns the empty queryset, although the queryset minus exactly the
PageContent records not attached to site 2 is the whole one-record
queryset. -/
theorem C9_counterexample_cache_not_site_keyed :
    (content_expiry_site_page_content_excluded_set "page"
        [{ pk := 10, site := 2 }] 2 [pageRecord]
        (content_expiry_site_page_content_excluded_set "page"
          [{ pk := 10, site := 2 }] 1 [pageRecord] none).2).1 = [] ∧
    [pageRecord].filter (fun r =>
      !(r.version.content_type == "page" &&
        ((([{ pk := 10, site := 2 }] : List PageContent).filter
            (fun p => p.site != 2)).map (fun p => p.pk)).contains
          r.version.object_id)) = [pageRecord] := by decide

lemma site_exclusion_filter_spec (page_content_ctype : String)
    (pageContents : List PageContent) (site : Nat) (qs : List ContentExpiry)
    (r : ContentExpiry) :
    (r ∈ qs.filter (fun r =>
        !(r.version.content_type == page_content_ctype &&
          ((pageContents.filter (fun p => p.site != site)).map
            (fun p => p.pk)).contains r.version.object_id)) ↔
      r ∈ qs ∧ ¬(r.version.content_type = page_content_ctype ∧
        ∃ p ∈ pageContents, p.pk = r.version.object_id ∧ p.site ≠ site)) := by
  rw [List.mem_filter]
  constructor
  · rintro ⟨hmem, hpred⟩
    refine ⟨hmem, ?_⟩
    rintro ⟨hct, p, hp, hpk, hsite⟩
    rw [Bool.not_eq_true', Bool.and_eq_false_iff] at hpred
    rcases hpred with hpred | hpred
    · rw [beq_eq_false_iff_ne] at hpred
      exact hpred hct
    · rw [← Bool.not_eq_true, List.elem_iff] at hpred
      apply hpred
      apply List.mem_map.mpr
      refine ⟨p, ?_, hpk⟩
      rw [List.mem_filter]
      exact ⟨hp, by simpa using hsite⟩
  · rintro ⟨hmem, hnot⟩
    refine ⟨hmem, ?_⟩
    rw [Bool.not_eq_true', Bool.and_eq_false_iff]
    by_cases hct : r.version.content_type = page_content_ctype
    · right
      rw [← Bool.not_eq_true, List.elem_iff]
      intro hin
      obtain ⟨p, hpmem, hppk⟩ := List.mem_map.mp hin
      rw [List.mem_filter] at hpmem
      exact hnot ⟨hct, p, hpmem.1, hppk, by simpa using hpmem.2⟩
    · left
      rw [beq_eq_false_iff_ne]
      exact hct

/-- C9, behaviour the code does deliver: only when the process-wide cache
is empty (falsy) does content_expiry_site_page_content_excluded_set return
the queryset minus exactly the PageContent-typed records whose page is not
attached to the given site, and it then stores that site's exclusion list
in the unkeyed cache; a later call finding a non-empty cache reuses the
stored list even for a different site. -/
theorem C9_site_exclusion_fresh_cache
    (page_content_ctype : String) (pageContents : List PageContent)
    (site : Nat) (qs : List ContentExpiry) (cache : Option (List Nat))
    (hc : cacheFalsy (get_changelist_page_content_exclusion_cache cache) = true) :
    (∀ r, r ∈ (content_expiry_site_page_content_excluded_set page_content_ctype
        pageContents site qs cache).1 ↔
      r ∈ qs ∧ ¬(r.version.content_type = page_content_ctype ∧
        ∃ p ∈ pageContents, p.pk = r.version.object_id ∧ p.site ≠ site)) ∧
    (content_expiry_site_page_content_excluded_set page_content_ctype
        pageContents site qs cache).2 =
      some ((pageContents.filter (fun p => p.site != site)).map (fun p => p.pk)) := by
  have hc' : cacheFalsy cache = true := hc
  have hkey : content_expiry_site_page_content_excluded_set page_content_ctype
      pageContents site qs cache =
      (qs.filter (fun r =>
        !(r.version.content_type == page_content_ctype &&
          ((pageContents.filter (fun p => p.site != site)).map
            (fun p => p.pk)).contains r.version.object_id)),
       set_changelist_page_content_exclusion_cache
        ((pageContents.filter (fun p => p.site != site)).map (fun p => p.pk))) := by
    unfold content_expiry_site_page_content_excluded_set
      get_changelist_page_content_exclusion_cache
    rw [if_pos hc']
  rw [hkey]
  refine ⟨?_, rfl⟩
  intro r
  exact site_exclusion_filter_spec page_content_ctype pageContents site qs r

/-- Witness for the fresh-cache behaviour of C9: a fresh call for site 2
keeps the record whose page is on site 2 and stores the empty exclusion
list. -/
theorem C9_site_exclusion_fresh_cache_witness :
    cacheFalsy (get_changelist_page_content_exclusion_cache none) = true ∧
    ((∀ r, r ∈ (content_expiry_site_page_content_excluded_set "page"
        [{ pk := 10, site := 2 }] 2 [pageRecord] none).1 ↔
      r ∈ [pageRecord] ∧ ¬(r.version.content_type = "page" ∧
        ∃ p ∈ [({ pk := 10, site := 2 } : PageContent)],
          p.pk = r.version.object_id ∧ p.site ≠ 2)) ∧
    (content_expiry_site_page_content_excluded_set "page"
        [{ pk := 10, site := 2 }] 2 [pageRecord] none).2 =
      some ((([{ pk := 10, site := 2 }] : List PageContent).filter
        (fun p => p.site != 2)).map (fun p => p.pk))) :=
  ⟨rfl,
    C9_site_exclusion_fresh_cache "page" [{ pk := 10, site := 2 }] 2
      [pageRecord] none rfl⟩

/-! ## Theorems for C10 -/

/-- C10 counterexample: a state parameter repeating the `_all_` sentinel
defeats the single-occurrence removal, so the generated query string
carries the sentinel together with the concrete state being included. -/
theorem C10_counterexample_sentinel_survives :
    ((VersionStateFilter._update_query (some "_all_,_all_") (some "draft")
        none).getD []).contains "_all_" = true ∧
    ((VersionStateFilter._update_query (some "_all_,_all_") (some "draft")
        none).getD []).contains "draft" = true := by decide

/-- Sentinel-removal step of _update_query, factored out for the proofs. -/
def updStep1 (l : List String) : List String :=
  if l.contains "_all_" then l.erase "_all_" else l

/-- Include step of _update_query, factored out for the proofs. -/
def updStep2 (l : List String) : Option String → List String
  | some i => if i != "" && !(l.contains i) then l ++ [i] else l
  | none => l

/-- Exclude step of _update_query, factored out for the proofs. -/
def updStep3 (l : List String) : Option String → List String
  | some e => if e != "" && l.contains e then l.erase e else l
  | none => l

lemma update_query_eq (value inc exc : Option String) :
    VersionStateFilter._update_query value inc exc =
      (if (updStep3 (updStep2 (updStep1 (value_as_list value)) inc) exc).isEmpty
       then none
       else some (updStep3 (updStep2 (updStep1 (value_as_list value)) inc) exc)) := by
  cases inc <;> cases exc <;> rfl

lemma updStep1_sentinel_free (l : List String) (hcount : l.count "_all_" ≤ 1) :
    "_all_" ∉ updStep1 l := by
  unfold updStep1
  by_cases hmem : l.contains "_all_" = true
  · rw [if_pos hmem]
    have hm : "_all_" ∈ l := List.elem_iff.mp hmem
    have hc1 : (l.erase "_all_").count "_all_" = l.count "_all_" - 1 :=
      List.count_erase_self _ _
    have hc2 : 0 < l.count "_all_" := List.count_pos_iff.mpr hm
    intro hmem'
    have hc3 : 0 < (l.erase "_all_").count "_all_" := List.count_pos_iff.mpr hmem'
    omega
  · rw [if_neg hmem]
    intro hmem'
    exact hmem (List.elem_iff.mpr hmem')

lemma updStep2_sentinel_free (l : List String) (h : "_all_" ∉ l)
    (inc : Option String) (hinc : inc ≠ some "_all_") :
    "_all_" ∉ updStep2 l inc := by
  cases inc with
  | none => exact h
  | some i =>
      have hi : i ≠ "_all_" := fun he => hinc (by rw [he])
      simp only [updStep2]
      by_cases hcond : (i != "" && !(l.contains i)) = true
      · rw [if_pos hcond]
        intro hmem
        rcases List.mem_append.mp hmem with hm | hm
        · exact h hm
        · exact hi (List.mem_singleton.mp hm).symm
      · rw [if_neg hcond]
        exact h

lemma updStep3_sentinel_free (l : List String) (h : "_all_" ∉ l)
    (exc : Option String) : "_all_" ∉ updStep3 l exc := by
  cases exc with
  | none => exact h
  | some e =>
      simp only [updStep3]
      by_cases hcond : (e != "" && l.contains e) = true
      · rw [if_pos hcond]
        intro hmem
        exact h (List.mem_of_mem_erase hmem)
      · rw [if_neg hcond]
        exact h

/-- C10 amended: provided the sentinel occurs at most once in the incoming
selection and the include argument is not the sentinel itself (both hold
for every query string and call site the filter UI generates),
_update_query never emits the `_all_` sentinel in the state parameter - in
particular never together with concrete states - and whenever it does emit
the parameter the selection is non-empty (an empty resulting selection
removes the parameter entirely). -/
theorem C10_update_query_sentinel_free (value inc exc : Option String)
    (hcount : (value_as_list value).count "_all_" ≤ 1)
    (hinc : inc ≠ some "_all_") :
    ∀ l, VersionStateFilter._update_query value inc exc = some l →
      "_all_" ∉ l ∧ l ≠ [] := by
  intro l hl
  rw [update_query_eq] at hl
  have h3 : "_all_" ∉ updStep3 (updStep2 (updStep1 (value_as_list value)) inc) exc :=
    updStep3_sentinel_free _
      (updStep2_sentinel_free _ (updStep1_sentinel_free _ hcount) inc hinc) exc
  by_cases hemp :
      (updStep3 (updStep2 (updStep1 (value_as_list value)) inc) exc).isEmpty = true
  · rw [if_pos hemp] at hl
    cases hl
  · rw [if_neg hemp] at hl
    injection hl with hinj
    subst hinj
    refine ⟨h3, ?_⟩
    intro hnil
    rw [hnil] at hemp
    exact hemp rfl

/-- Witness for the amended C10: including "draft" and excluding
"published" on the selection "published,_all_" yields the parameter
["draft"], free of the sentinel and non-empty. -/
theorem C10_update_query_sentinel_free_witness :
    ((value_as_list (some "published,_all_")).count "_all_" ≤ 1 ∧
      (some "draft" : Option String) ≠ some "_all_") ∧
    VersionStateFilter._update_query (some "published,_all_") (some "draft")
        (some "published") = some ["draft"] ∧
    ("_all_" ∉ ["draft"] ∧ (["draft"] : List String) ≠ []) :=
  ⟨⟨by decide, by decide⟩, by decide,
    C10_update_query_sentinel_free (some "published,_all_") (some "draft")
      (some "published") (by decide) (by decide) ["draft"] (by decide)⟩

end DCE
